import Mathlib

/-!
Verification of the two UI helpers of this repository fragment:

* `useTransform` (src/packages/leva/src/hooks/useTransform.ts): a Transform
  Controller holding a mutable 2D point, partially updated by `set` and
  reflected as a CSS translate3d style on an optionally attached element.

* `useCanvas2d` (src/unnamed/part_000): a Canvas Surface Manager that keeps a
  canvas backing store in sync with its displayed size times the pixel density,
  invoking a render callback through a debounce window of 250 time-units.

The embedding is shallow: React ref cells become explicit state records, and
the event-driven behaviour of `useCanvas2d` becomes a deterministic step
function over timestamped event traces.  The `debounce` utility is imported
by the source from `../utils`, which is absent from this fragment; it is
modelled from the spec (see `flushAt` / `applyEvent`).
-/

/-! ## Transform Controller (useTransform) -/

/-- The internally retained point (`local` ref in the source; `local` is a Lean
keyword, hence `localPoint` below).  A coordinate is a JavaScript value that is
either a number (`some n`) or `undefined` (`none`); initially both coordinates
are the number 0. -/
structure LocalPoint where
  x : Option Int
  y : Option Int
deriving Repr, DecidableEq

/-- Argument of `set`: an object literal of type `{x?: number; y?: number}`.
The outer `Option` records whether the field is present at all on the object;
the inner `Option` is the field value, which may itself be `undefined`.
`{x: a}` is `⟨some (some a), none⟩`; `{x: undefined}` is `⟨some none, none⟩`. -/
structure SetArg where
  x : Option (Option Int) := none
  y : Option (Option Int) := none
deriving Repr, DecidableEq

/-- `Object.assign(local.current, point)`: every own enumerable property of the
argument is copied onto the target, including properties whose value is
`undefined`; absent fields leave the target untouched. -/
def objectAssign (l : LocalPoint) (p : SetArg) : LocalPoint :=
  { x := p.x.getD l.x, y := p.y.getD l.y }

/-- JavaScript string interpolation of a coordinate value. -/
def jsNumStr : Option Int → String
  | none => "undefined"
  | some n => toString n

/-- The template literal written by `set`; the third component is
the literal character `0` in the source. -/
def translate3d (l : LocalPoint) : String :=
  "translate3d(" ++ jsNumStr l.x ++ "px, " ++ jsNumStr l.y ++ "px, 0)"

/-- State of one `useTransform` instance: the element reference slot (`none`
when no element is attached, otherwise the attached element represented by its
current `style.transform` string) and the retained point. -/
structure TransformState where
  ref : Option String
  localPoint : LocalPoint
deriving Repr, DecidableEq

/-- The state returned by `useTransform()` before any element is attached:
`ref` starts at `null` and the point at `{x: 0, y: 0}`. -/
def useTransform : TransformState :=
  { ref := none, localPoint := { x := some 0, y := some 0 } }

/-- The host attaches an element (with a given current style string) to the
reference slot. -/
def attachElem (s : TransformState) (style : String) : TransformState :=
  { s with ref := some style }

namespace Transform

/-- The `set` callback of `useTransform`: merge the argument into the retained
point with `Object.assign`, then, if an element is attached, write the
translate3d style onto it.  The second component of the result is the list of
style writes performed by the call (the source performs the write as a single
synchronous assignment to `ref.current.style.transform`). -/
def set (s : TransformState) (p : SetArg) : TransformState × List String :=
  let merged := objectAssign s.localPoint p
  match s.ref with
  | some _ => ({ ref := some (translate3d merged), localPoint := merged },
               [translate3d merged])
  | none => ({ s with localPoint := merged }, [])

theorem set_localPoint (s : TransformState) (p : SetArg) :
    (Transform.set s p).1.localPoint = objectAssign s.localPoint p := by
  cases h : s.ref <;> simp [Transform.set, h]

end Transform

/-- C3: starting from any state of a Transform Controller, `set({x: a})`
followed by `set({y: b})` leaves the retained point equal to `(a, b)`:
the merge keeps every field omitted from the argument. -/
theorem useTransform_merge_keeps_fields (s : TransformState) (a b : Int) :
    ((Transform.set (Transform.set s { x := some (some a) }).1
        { y := some (some b) }).1).localPoint
      = { x := some a, y := some b } := by
  simp [Transform.set_localPoint, objectAssign]

/-- C6: with an element attached, `set({x, y})` performs exactly one style
write, whose string encodes the merged point as the 3D offset `(x, y, 0)` with
the third component literally zero, and the element's style afterwards is that
same string. -/
theorem useTransform_set_attached_write (s : TransformState) (a b : Int)
    (st : String) (h : s.ref = some st) :
    (Transform.set s { x := some (some a), y := some (some b) }).2
        = ["translate3d(" ++ toString a ++ "px, " ++ toString b ++ "px, 0)"] ∧
    (Transform.set s { x := some (some a), y := some (some b) }).1.ref
        = some ("translate3d(" ++ toString a ++ "px, " ++ toString b ++ "px, 0)") := by
  simp [Transform.set, h, translate3d, objectAssign, jsNumStr]

theorem useTransform_set_attached_write_witness :
    (attachElem useTransform "").ref = some "" ∧
    (Transform.set (attachElem useTransform "")
        { x := some (some 5), y := some (some 10) }).2
      = ["translate3d(5px, 10px, 0)"] := by
  refine ⟨rfl, ?_⟩
  exact (useTransform_set_attached_write (attachElem useTransform "") 5 10 "" rfl).1

/-- C7: `set` with no attached element performs no style write (and, being a
total function here, cannot fail), still merges the argument into the retained
point, and the merged state is observable once an element is later attached
and `set` is called again: that later call writes the style of the fully
merged point. -/
theorem useTransform_set_detached (s : TransformState) (p q : SetArg)
    (st : String) (h : s.ref = none) :
    (Transform.set s p).2 = [] ∧
    (Transform.set s p).1.localPoint = objectAssign s.localPoint p ∧
    (Transform.set (attachElem (Transform.set s p).1 st) q).2
        = [translate3d (objectAssign (objectAssign s.localPoint p) q)] := by
  refine ⟨by simp [Transform.set, h], Transform.set_localPoint s p, ?_⟩
  simp [attachElem, Transform.set, Transform.set_localPoint, h, objectAssign]

theorem useTransform_set_detached_witness :
    useTransform.ref = none ∧
    (Transform.set (attachElem
        (Transform.set useTransform { x := some (some 7) }).1 "") {}).2
      = ["translate3d(7px, 0px, 0)"] := by
  refine ⟨rfl, ?_⟩
  exact (useTransform_set_detached useTransform { x := some (some 7) } {} "" rfl).2.2

/-- C9: the partial-update guarantee only covers fields genuinely absent from
the argument object: `set({x: undefined})` copies the own enumerable property
`x` with value `undefined` onto the retained point, overwriting the stored x
coordinate with `undefined` instead of keeping its previous value. -/
theorem useTransform_set_undefined_overwrites (s : TransformState) :
    ((Transform.set s { x := some none }).1).localPoint
      = { x := none, y := s.localPoint.y } := by
  simp [Transform.set_localPoint, objectAssign]

/-! ## Canvas Surface Manager (useCanvas2d)

The hook's behaviour is embedded as a deterministic machine over timestamped
event traces.  Dimensions and the pixel density are abstracted to exact natural
numbers.  The `debounce` helper the source imports from `../utils` is not part
of this fragment; it is modelled from the spec (design note: "on event,
(re)start a timer of fixed delay; on timer fire, execute the handler with the
latest captured arguments", glossary: "a single delayed action fired after a
quiescence period"): each call to the debounced `handleCanvas` overwrites the
single pending deadline with `now + 250`, and the handler body runs when the
deadline is reached.  The model keeps one pending-deadline slot; a
render-callback change (`changeFn`) replaces the listener but neither cancels
nor restarts the pending deadline, and no claim below depends on the corner
case of two simultaneously pending timeouts from distinct closures. -/

/-- State of one `useCanvas2d` instance.  `canvasAttached` is whether the
`canvas` ref currently holds an element; `offsetW`/`offsetH` are its displayed
(CSS) size, `dpr` the display's pixel density, `width`/`height` the canvas
backing store.  `ctxAcquired` counts `getContext` calls, `hasFired` is the
one-shot flag, `listenerActive` is whether a resize listener is registered,
`timer` the pending debounce deadline, `renders` the log of render-callback
invocations as (fire time, backing width, backing height), `recomputes` the
number of backing-store recomputations, and `crashed` records that the handler
body faulted on a null canvas reference. -/
structure CanvasState where
  mounted : Bool
  canvasAttached : Bool
  offsetW : Nat
  offsetH : Nat
  dpr : Nat
  width : Nat
  height : Nat
  ctxAcquired : Nat
  hasFired : Bool
  listenerActive : Bool
  timer : Option Nat
  renders : List (Nat × Nat × Nat)
  recomputes : Nat
  crashed : Bool
deriving Repr, DecidableEq

/-- The debounce window of `useCanvas2d` (250 time-units). -/
def debounceDelay : Nat := 250

/-- State before mounting: no element, no listener, nothing fired.  The
displayed size and pixel density of the environment are given. -/
def initState (w h d : Nat) : CanvasState :=
  { mounted := false, canvasAttached := false, offsetW := w, offsetH := h,
    dpr := d, width := 0, height := 0, ctxAcquired := 0, hasFired := false,
    listenerActive := false, timer := none, renders := [], recomputes := 0,
    crashed := false }

/-- External events delivered to the hook: mounting (React attaches the ref and
runs both effects), a window resize carrying the new displayed size, a change
of the render-callback identity (the `[fn]` effect re-runs), unmounting (the
cleanup runs and the ref is cleared), and a pure passage-of-time tick. -/
inductive CanvasEvent where
  | mount
  | resize (w h : Nat)
  | changeFn
  | unmount
  | tick
deriving Repr, DecidableEq

/-- The debounced handler body of `handleCanvas` firing at time `d`:
`canvas.current!.width = canvas.current!.offsetWidth * window.devicePixelRatio`
(and analogously for the height), then `fn(canvas.current, ctx.current)`.
When the canvas reference is unset, the first line dereferences `null` and
throws, so neither the backing store nor the render log changes; the model
records this fault in `crashed`. -/
def fireTimer (s : CanvasState) (d : Nat) : CanvasState :=
  if s.canvasAttached then
    { s with width := s.offsetW * s.dpr, height := s.offsetH * s.dpr,
             recomputes := s.recomputes + 1,
             renders := s.renders ++ [(d, s.offsetW * s.dpr, s.offsetH * s.dpr)],
             timer := none }
  else
    { s with crashed := true, timer := none }

/-- Run the pending debounce deadline if it has been reached by time `t`. -/
def flushAt (s : CanvasState) (t : Nat) : CanvasState :=
  match s.timer with
  | some d => if d ≤ t then fireTimer s d else s
  | none => s

/-- The hook's reaction to an event at time `t` (timer firing handled
separately by `flushAt`):

* `mount`: the host sets the canvas ref, both effects run: the `[fn]` effect
  registers the resize listener and, the one-shot `hasFired` flag being unset,
  calls the debounced `handleCanvas` (scheduling the deadline `t + 250`) and
  sets the flag; the `[]` effect acquires the 2D context once.
* `resize w h`: the host updates the displayed size; if a listener is
  registered, the debounced `handleCanvas` runs, overwriting the deadline with
  `t + 250`.
* `changeFn`: the `[fn]` effect re-runs: the old listener is removed and a new
  one added (the listener stays active), `hasFired` is already set so
  `handleCanvas` is not called, and the `[]` effect does not re-run.
* `unmount`: the cleanup removes the resize listener and React clears the
  canvas ref; the pending deadline, if any, is not cancelled.
* `tick`: nothing but the passage of time. -/
def applyEvent (s : CanvasState) (t : Nat) : CanvasEvent → CanvasState
  | .mount =>
      let s1 := { s with mounted := true, canvasAttached := true,
                         listenerActive := true }
      let s2 := if s1.hasFired then s1
                else { s1 with timer := some (t + debounceDelay), hasFired := true }
      { s2 with ctxAcquired := s2.ctxAcquired + 1 }
  | .resize w h =>
      let s1 := { s with offsetW := w, offsetH := h }
      if s1.listenerActive then { s1 with timer := some (t + debounceDelay) } else s1
  | .changeFn =>
      if s.hasFired then s
      else { s with timer := some (t + debounceDelay), hasFired := true }
  | .unmount =>
      { s with mounted := false, canvasAttached := false, listenerActive := false }
  | .tick => s

/-- One step: fire the pending deadline if it is due by the event's time, then
apply the event. -/
def stepEvent (s : CanvasState) (te : Nat × CanvasEvent) : CanvasState :=
  applyEvent (flushAt s te.1) te.1 te.2

/-- Run a timestamped event trace from a given state. -/
def runTrace0 (s : CanvasState) (tr : List (Nat × CanvasEvent)) : CanvasState :=
  tr.foldl stepEvent s

/-- Run a trace from the pre-mount state of an environment with displayed size
`w × h` and pixel density `d`. -/
def runTrace (w h d : Nat) (tr : List (Nat × CanvasEvent)) : CanvasState :=
  runTrace0 (initState w h d) tr

/-- A concrete post-mount state: canvas attached, listener registered, one
context acquisition, first debounce deadline pending at 250. -/
def demoMounted : CanvasState :=
  { mounted := true, canvasAttached := true, offsetW := 8, offsetH := 6,
    dpr := 3, width := 0, height := 0, ctxAcquired := 1, hasFired := true,
    listenerActive := true, timer := some 250, renders := [], recomputes := 0,
    crashed := false }

/-- A concrete post-unmount state with a still-pending debounce deadline. -/
def demoUnmounted : CanvasState :=
  { mounted := false, canvasAttached := false, offsetW := 8, offsetH := 6,
    dpr := 3, width := 24, height := 18, ctxAcquired := 1, hasFired := true,
    listenerActive := false, timer := some 650,
    renders := [(250, 24, 18)], recomputes := 1, crashed := false }

/-- C1 counterexample: the first render-callback invocation is debounced like
any other.  Immediately after mounting nothing has fired yet, and when a resize
arrives 100 units after mounting (inside the 250-unit window) the whole run
produces exactly one invocation, at time 350 with the resized dimensions — so
zero invocations occur before the resize event, contradicting both "fires
immediately on initial attachment" and "fires exactly once before any resize
event occurs". -/
theorem useCanvas2d_no_immediate_first_render :
    (runTrace 4 3 2 [(0, CanvasEvent.mount)]).renders = [] ∧
    (runTrace 4 3 2 [(0, CanvasEvent.mount), (100, CanvasEvent.resize 9 9),
        (600, CanvasEvent.tick)]).renders = [(350, 18, 18)] := by
  decide

/-- C1 amended: on attachment the one-shot `hasFired` flag triggers a single
call of the debounced handler without requiring any resize event, but the call
passes through the 250-unit debounce: left undisturbed, the render callback
fires exactly once, 250 time-units after attachment, with the mount-time
dimensions scaled by the pixel density. -/
theorem useCanvas2d_first_render_after_delay (w h d t0 T : Nat)
    (hT : t0 + debounceDelay ≤ T) :
    (runTrace w h d [(t0, CanvasEvent.mount), (T, CanvasEvent.tick)]).renders
      = [(t0 + debounceDelay, w * d, h * d)] := by
  simp [runTrace, runTrace0, stepEvent, flushAt, applyEvent, fireTimer,
        initState, hT]

theorem useCanvas2d_first_render_after_delay_witness :
    0 + debounceDelay ≤ 250 ∧
    (runTrace 4 3 2 [(0, CanvasEvent.mount), (250, CanvasEvent.tick)]).renders
      = [(0 + debounceDelay, 4 * 2, 3 * 2)] :=
  ⟨by decide, useCanvas2d_first_render_after_delay 4 3 2 0 250 (by decide)⟩

/-- C2 counterexample: tearing down the owning scope does not cancel a pending
debounced render.  After mount at 0, first render at 250, resize at 400 and
unmount at 500, the deadline scheduled by the resize (650) is still pending
after teardown, and when it is reached the handler still runs — it faults on
the cleared canvas reference — contradicting "any pending debounced render
that was scheduled but has not yet fired is cancelled". -/
theorem useCanvas2d_pending_timer_survives_teardown :
    (runTrace 10 20 2 [(0, CanvasEvent.mount), (300, CanvasEvent.tick),
        (400, CanvasEvent.resize 7 9), (500, CanvasEvent.unmount)]).timer
      = some 650 ∧
    (runTrace 10 20 2 [(0, CanvasEvent.mount), (300, CanvasEvent.tick),
        (400, CanvasEvent.resize 7 9), (500, CanvasEvent.unmount),
        (1000, CanvasEvent.tick)]).crashed = true := by
  decide

/-- C2 amended: teardown removes the resize subscription, so a subsequent
resize event schedules nothing and produces no render-callback invocation; but
the pending debounce deadline is NOT cancelled by teardown, and when it fires
after teardown the handler dereferences the cleared canvas reference and
faults, again without invoking the render callback. -/
theorem useCanvas2d_teardown_behavior (s : CanvasState) (t t2 d w h : Nat) :
    (applyEvent s t CanvasEvent.unmount).listenerActive = false ∧
    (applyEvent s t CanvasEvent.unmount).timer = s.timer ∧
    (stepEvent (applyEvent s t CanvasEvent.unmount)
        (t2, CanvasEvent.resize w h)).renders = s.renders ∧
    (stepEvent (applyEvent s t CanvasEvent.unmount)
        (t2, CanvasEvent.resize w h)).recomputes = s.recomputes ∧
    (fireTimer (applyEvent s t CanvasEvent.unmount) d).crashed = true ∧
    (fireTimer (applyEvent s t CanvasEvent.unmount) d).renders = s.renders := by
  refine ⟨rfl, rfl, ?_, ?_, by simp [applyEvent, fireTimer], by simp [applyEvent, fireTimer]⟩ <;>
    cases h : s.timer <;>
      simp [stepEvent, flushAt, applyEvent, fireTimer, h] <;> split <;> simp

/-- C4: whenever the debounced handler fires with the canvas attached, the new
backing-store width is exactly the displayed width times the pixel density,
the height analogously, and the render callback is invoked once with exactly
those dimensions. -/
theorem useCanvas2d_backing_store_dims (s : CanvasState) (d : Nat)
    (h : s.canvasAttached = true) :
    (fireTimer s d).width = s.offsetW * s.dpr ∧
    (fireTimer s d).height = s.offsetH * s.dpr ∧
    (fireTimer s d).renders
      = s.renders ++ [(d, s.offsetW * s.dpr, s.offsetH * s.dpr)] := by
  simp [fireTimer, h]

theorem useCanvas2d_backing_store_dims_witness :
    demoMounted.canvasAttached = true ∧
    ((fireTimer demoMounted 250).width = demoMounted.offsetW * demoMounted.dpr ∧
     (fireTimer demoMounted 250).height = demoMounted.offsetH * demoMounted.dpr ∧
     (fireTimer demoMounted 250).renders = demoMounted.renders ++
       [(250, demoMounted.offsetW * demoMounted.dpr,
         demoMounted.offsetH * demoMounted.dpr)]) :=
  ⟨by decide, useCanvas2d_backing_store_dims demoMounted 250 (by decide)⟩

/-- C10: the handler body dereferences the canvas reference with a non-null
assertion and no guard; whenever it fires while the reference is unset it
faults instead of performing a no-op — the backing store, the recomputation
count and the render log are all left untouched. -/
theorem useCanvas2d_handler_unguarded_deref (s : CanvasState) (d : Nat)
    (h : s.canvasAttached = false) :
    (fireTimer s d).crashed = true ∧
    (fireTimer s d).renders = s.renders ∧
    (fireTimer s d).width = s.width ∧
    (fireTimer s d).recomputes = s.recomputes := by
  simp [fireTimer, h]

theorem useCanvas2d_handler_unguarded_deref_witness :
    demoUnmounted.canvasAttached = false ∧
    ((fireTimer demoUnmounted 650).crashed = true ∧
     (fireTimer demoUnmounted 650).renders = demoUnmounted.renders ∧
     (fireTimer demoUnmounted 650).width = demoUnmounted.width ∧
     (fireTimer demoUnmounted 650).recomputes = demoUnmounted.recomputes) :=
  ⟨by decide, useCanvas2d_handler_unguarded_deref demoUnmounted 650 (by decide)⟩

/-! ### Context acquisition (claim C8) -/

theorem ctxAcquired_fireTimer (s : CanvasState) (d : Nat) :
    (fireTimer s d).ctxAcquired = s.ctxAcquired := by
  unfold fireTimer; split <;> rfl

theorem ctxAcquired_flushAt (s : CanvasState) (t : Nat) :
    (flushAt s t).ctxAcquired = s.ctxAcquired := by
  unfold flushAt
  cases s.timer with
  | none => rfl
  | some d =>
      by_cases hd : d ≤ t
      · simp [hd, ctxAcquired_fireTimer]
      · simp [hd]

theorem ctxAcquired_applyEvent (s : CanvasState) (t : Nat) (e : CanvasEvent)
    (h : e ≠ CanvasEvent.mount) :
    (applyEvent s t e).ctxAcquired = s.ctxAcquired := by
  cases e with
  | mount => exact absurd rfl h
  | resize w h2 => simp only [applyEvent]; split <;> rfl
  | changeFn => simp only [applyEvent]; split <;> rfl
  | unmount => rfl
  | tick => rfl

theorem ctxAcquired_stepEvent (s : CanvasState) (te : Nat × CanvasEvent)
    (h : te.2 ≠ CanvasEvent.mount) :
    (stepEvent s te).ctxAcquired = s.ctxAcquired := by
  unfold stepEvent
  rw [ctxAcquired_applyEvent _ _ _ h, ctxAcquired_flushAt]

theorem ctxAcquired_runTrace0 (tr : List (Nat × CanvasEvent)) :
    ∀ s : CanvasState, (∀ e ∈ tr, e.2 ≠ CanvasEvent.mount) →
      (runTrace0 s tr).ctxAcquired = s.ctxAcquired := by
  induction tr with
  | nil => intro s _; rfl
  | cons te rest ih =>
      intro s hm
      have h1 : (runTrace0 s (te :: rest)) = runTrace0 (stepEvent s te) rest := rfl
      rw [h1, ih (stepEvent s te) (fun e he => hm e (List.mem_cons_of_mem te he)),
          ctxAcquired_stepEvent s te (hm te (List.mem_cons_self te rest))]

/-- C8: the 2D context is acquired exactly once, by the `[]`-dependency effect
at mount; over any subsequent trace of resizes, debounced firings,
render-callback changes, unmounts and idle time, no second acquisition ever
happens. -/
theorem useCanvas2d_context_acquired_once (w h d t0 : Nat)
    (tr : List (Nat × CanvasEvent))
    (hm : ∀ e ∈ tr, e.2 ≠ CanvasEvent.mount) :
    (runTrace0 (stepEvent (initState w h d) (t0, CanvasEvent.mount))
        tr).ctxAcquired = 1 := by
  rw [ctxAcquired_runTrace0 tr _ hm]
  simp [stepEvent, flushAt, applyEvent, initState]

theorem useCanvas2d_context_acquired_once_witness :
    (∀ e ∈ [((300 : Nat), CanvasEvent.tick), (400, CanvasEvent.resize 9 9),
        (500, CanvasEvent.changeFn), (800, CanvasEvent.tick),
        (900, CanvasEvent.unmount)], e.2 ≠ CanvasEvent.mount) ∧
    (runTrace0 (stepEvent (initState 4 3 2) (0, CanvasEvent.mount))
        [(300, CanvasEvent.tick), (400, CanvasEvent.resize 9 9),
         (500, CanvasEvent.changeFn), (800, CanvasEvent.tick),
         (900, CanvasEvent.unmount)]).ctxAcquired = 1 :=
  ⟨by decide, useCanvas2d_context_acquired_once 4 3 2 0 _ (by decide)⟩

/-! ### Resize bursts (claim C5) -/

/-- A burst of resize events, each given as (time, new displayed width, new
displayed height). -/
def resizeBurst (rs : List (Nat × Nat × Nat)) : List (Nat × CanvasEvent) :=
  rs.map (fun r => (r.1, CanvasEvent.resize r.2.1 r.2.2))

/-- Every event of the burst falls inside the debounce window opened by the
previous one: each gap is strictly less than 250. -/
def gapsOk (t0 : Nat) : List (Nat × Nat × Nat) → Bool
  | [] => true
  | r :: rs => decide (r.1 < t0 + debounceDelay) && gapsOk r.1 rs

/-- Time of the last event of a burst (`t0` when the burst is empty). -/
def burstLastT (t0 : Nat) : List (Nat × Nat × Nat) → Nat
  | [] => t0
  | r :: rs => burstLastT r.1 rs

/-- Displayed width after the last event of a burst. -/
def burstLastW (w0 : Nat) : List (Nat × Nat × Nat) → Nat
  | [] => w0
  | r :: rs => burstLastW r.2.1 rs

/-- Displayed height after the last event of a burst. -/
def burstLastH (h0 : Nat) : List (Nat × Nat × Nat) → Nat
  | [] => h0
  | r :: rs => burstLastH r.2.2 rs

theorem runTrace0_resizeBurst (rs : List (Nat × Nat × Nat)) :
    ∀ (s : CanvasState) (t0 : Nat),
      s.timer = some (t0 + debounceDelay) →
      s.listenerActive = true →
      gapsOk t0 rs = true →
      runTrace0 s (resizeBurst rs)
        = { s with offsetW := burstLastW s.offsetW rs,
                   offsetH := burstLastH s.offsetH rs,
                   timer := some (burstLastT t0 rs + debounceDelay) } := by
  induction rs with
  | nil =>
      intro s t0 hTimer _ _
      simp only [resizeBurst, List.map_nil, runTrace0, List.foldl_nil,
        burstLastW, burstLastH, burstLastT, ← hTimer]
  | cons r rest ih =>
      intro s t0 hTimer hListen hGaps
      simp only [gapsOk, Bool.and_eq_true, decide_eq_true_eq] at hGaps
      obtain ⟨hGap1, hGapRest⟩ := hGaps
      have hstep : stepEvent s (r.1, CanvasEvent.resize r.2.1 r.2.2)
          = { s with offsetW := r.2.1, offsetH := r.2.2,
                     timer := some (r.1 + debounceDelay) } := by
        simp [stepEvent, flushAt, hTimer, applyEvent, hListen,
          Nat.not_le.mpr hGap1]
      have h1 : runTrace0 s (resizeBurst (r :: rest))
          = runTrace0 (stepEvent s (r.1, CanvasEvent.resize r.2.1 r.2.2))
              (resizeBurst rest) := rfl
      have ihres := ih
        { s with offsetW := r.2.1, offsetH := r.2.2,
                 timer := some (r.1 + debounceDelay) }
        r.1 rfl hListen hGapRest
      rw [h1, hstep, ihres]
      simp [burstLastW, burstLastH, burstLastT]

theorem runTrace0_append (s : CanvasState) (a b : List (Nat × CanvasEvent)) :
    runTrace0 s (a ++ b) = runTrace0 (runTrace0 s a) b := by
  simp [runTrace0, List.foldl_append]

/-- C5: a burst of N ≥ 1 resize events whose consecutive gaps are all inside
the 250-unit debounce window, followed by 250 units of quiescence, produces
exactly one backing-store recomputation and exactly one render-callback
invocation, fired 250 units after the last event of the burst with the last
event's dimensions scaled by the pixel density. -/
theorem useCanvas2d_burst_single_render (s : CanvasState)
    (r : Nat × Nat × Nat) (rest : List (Nat × Nat × Nat)) (T : Nat)
    (hTimer : s.timer = none) (hListen : s.listenerActive = true)
    (hAttach : s.canvasAttached = true)
    (hGaps : gapsOk r.1 rest = true)
    (hT : burstLastT r.1 rest + debounceDelay ≤ T) :
    (runTrace0 s (resizeBurst (r :: rest) ++ [(T, CanvasEvent.tick)])).renders
      = s.renders ++ [(burstLastT r.1 rest + debounceDelay,
          burstLastW r.2.1 rest * s.dpr, burstLastH r.2.2 rest * s.dpr)] ∧
    (runTrace0 s (resizeBurst (r :: rest) ++ [(T, CanvasEvent.tick)])).recomputes
      = s.recomputes + 1 := by
  have hstep1 : stepEvent s (r.1, CanvasEvent.resize r.2.1 r.2.2)
      = { s with offsetW := r.2.1, offsetH := r.2.2,
                 timer := some (r.1 + debounceDelay) } := by
    simp [stepEvent, flushAt, hTimer, applyEvent, hListen]
  have hburst := runTrace0_resizeBurst rest
    { s with offsetW := r.2.1, offsetH := r.2.2,
             timer := some (r.1 + debounceDelay) }
    r.1 rfl hListen hGaps
  have hcons : runTrace0 s (resizeBurst (r :: rest) ++ [(T, CanvasEvent.tick)])
      = runTrace0 (stepEvent s (r.1, CanvasEvent.resize r.2.1 r.2.2))
          (resizeBurst rest ++ [(T, CanvasEvent.tick)]) := rfl
  rw [hcons, hstep1, runTrace0_append, hburst]
  simp [runTrace0, stepEvent, flushAt, applyEvent, fireTimer, hT, hAttach]

/-- A concrete idle state between debounce windows: mounted, attached, listener
registered, one render already logged, no pending deadline. -/
def demoIdle : CanvasState :=
  { mounted := true, canvasAttached := true, offsetW := 8, offsetH := 6,
    dpr := 2, width := 16, height := 12, ctxAcquired := 1, hasFired := true,
    listenerActive := true, timer := none, renders := [(250, 16, 12)],
    recomputes := 1, crashed := false }

theorem useCanvas2d_burst_single_render_witness :
    demoIdle.timer = none ∧ demoIdle.listenerActive = true ∧
    demoIdle.canvasAttached = true ∧
    gapsOk 1000 [(1100, 50, 60), (1200, 70, 80)] = true ∧
    burstLastT 1000 [(1100, 50, 60), (1200, 70, 80)] + debounceDelay ≤ 1450 ∧
    ((runTrace0 demoIdle
        (resizeBurst ((1000, 30, 40) :: [(1100, 50, 60), (1200, 70, 80)])
          ++ [(1450, CanvasEvent.tick)])).renders
      = demoIdle.renders
        ++ [(burstLastT 1000 [(1100, 50, 60), (1200, 70, 80)] + debounceDelay,
            burstLastW 30 [(1100, 50, 60), (1200, 70, 80)] * demoIdle.dpr,
            burstLastH 40 [(1100, 50, 60), (1200, 70, 80)] * demoIdle.dpr)] ∧
     (runTrace0 demoIdle
        (resizeBurst ((1000, 30, 40) :: [(1100, 50, 60), (1200, 70, 80)])
          ++ [(1450, CanvasEvent.tick)])).recomputes
      = demoIdle.recomputes + 1) :=
  ⟨by decide, by decide, by decide, by decide, by decide,
   useCanvas2d_burst_single_render demoIdle (1000, 30, 40)
     [(1100, 50, 60), (1200, 70, 80)] 1450
     (by decide) (by decide) (by decide) (by decide) (by decide)⟩
